import Mathlib

/-!
Verification of `src/javascript/webdriver-jsapi/testcase.js`
(`webdriver.TestCase`), a test case that drives each test's
setUp → body → tearDown phases through the singleton
`webdriver.promise.Application`.

The embedding records the observable effects of a run as an event trace:
submissions of phase functions to the application, `doError` / `doSuccess`
reports, log lines, run-counter increments, the inter-test `timeout`, and
`finalize`.  Error values thrown by phase functions are an opaque type `ε`.
-/

namespace Webdriver

/-- The settled outcome of a phase function invocation: it either returned
normally or threw a value. -/
inductive Settlement (ε : Type) where
  | ok : Settlement ε
  | err : ε → Settlement ε
  deriving DecidableEq, Repr

/-- A JavaScript function value, abstracted as an identity (which function
object it is) together with the outcome it produces when invoked with a given
receiver (`goog.bind(fn, test.scope)` then called by the application). -/
structure Fn (ε : Type) where
  id : Nat
  result : Nat → Settlement ε

/-- `goog.testing.TestCase.Test`, the descriptor handed back by
`this.next()`: a name, the test body `ref`, and the receiver object `scope`
(the receiver is abstracted as an object identity). -/
structure Test (ε : Type) where
  name : String
  ref : Fn ε
  scope : Nat

/-- Observable effects of `webdriver.TestCase`, in the order they happen. -/
inductive Event (ε : Type) where
  | setCurrentTest : String → Event ε
  | incRunCount : Event ε
  | log : String → Event ε
  | invoke : String → Nat → Nat → Event ε
  | doError : String → ε → Event ε
  | doSuccess : String → Event ε
  | timeout : Nat → Event ε
  | finalize : Event ε
  deriving DecidableEq, Repr

/-- The state of the deferred chain built in `runSingleTest_`: the events
emitted so far, the chain's current settlement, and the `hadError` flag set
by the `onError` callback of `cycleTests`. -/
structure DRes (ε : Type) where
  trace : List (Event ε)
  st : Settlement ε
  hadError : Bool

/-- Modelled from the spec: `webdriver.promise.Application.getInstance()
.scheduleAndWaitForIdle(description, fn)` (the application is not under
`src/`) submits the bound phase function and settles only once the
application is idle; if the function throws synchronously or asynchronously
the settlement is `Err` carrying the thrown value (spec 4.1, 6). -/
def scheduleAndWait (description : String) (fn : Fn ε) (scope : Nat) : DRes ε :=
  ⟨[Event.invoke description fn.id scope], fn.result scope, false⟩

/-- Modelled from the spec: a success continuation on the application's
promise runs only when the chain is currently settled `Ok`; a failed chain
skips it and carries its error forward (spec 6). -/
def DRes.addCallback (d : DRes ε) (f : Unit → DRes ε) : DRes ε :=
  match d.st with
  | Settlement.ok => let r := f (); ⟨d.trace ++ r.trace, r.st, d.hadError || r.hadError⟩
  | Settlement.err e => ⟨d.trace, Settlement.err e, d.hadError⟩

/-- Modelled from the spec: attaching a failure handler recovers the chain —
subsequent continuations run normally even though an earlier phase failed
(spec 6).  The handler attached by `cycleTests` is always its local
`onError`, which sets `hadError` and reports `doError(test, e)`. -/
def DRes.addErrback (d : DRes ε) (testName : String) : DRes ε :=
  match d.st with
  | Settlement.ok => d
  | Settlement.err e => ⟨d.trace ++ [Event.doError testName e], Settlement.ok, true⟩

/-- `webdriver.TestCase.prototype.runSingleTest_`: schedules `this.setUp`,
then on success `test.ref`, an errback, then unconditionally `this.tearDown`,
then a second errback.  `setUp` and `tearDown` are the test case's own
methods; only the body comes from the descriptor; all three are bound to
`test.scope`. -/
def runSingleTest_ (setUp tearDown : Fn ε) (test : Test ε) : DRes ε :=
  ((((scheduleAndWait ("setUp()") setUp test.scope).addCallback
      (fun _ => scheduleAndWait (test.name ++ "()") test.ref test.scope)).addErrback
      test.name).addCallback
      (fun _ => scheduleAndWait ("tearDown()") tearDown test.scope)).addErrback
      test.name

/-- The events of one pass of `cycleTests` for a fetched test: set the
current test name, bump `result_.runCount`, log, run the phases, then in the
`then` callback report success when `hadError` is still false and schedule
the next cycle with a 100 ms timeout. -/
def cycleTrace (setUp tearDown : Fn ε) (test : Test ε) : List (Event ε) :=
  let d := runSingleTest_ setUp tearDown test
  [Event.setCurrentTest test.name, Event.incRunCount,
   Event.log ("Running test: " ++ test.name)]
  ++ d.trace
  ++ (if d.hadError then [] else [Event.doSuccess test.name])
  ++ [Event.timeout 100]

/-- `webdriver.TestCase.prototype.cycleTests`, run to completion over the
remaining tests of the registry iterator (`this.next()` modelled as taking
the head of the list): when no test remains it calls `finalize()` and
returns; otherwise it runs the cycle for the fetched test and recurses via
the timeout callback. -/
def cycleTests (setUp tearDown : Fn ε) : List (Test ε) → List (Event ε)
  | [] => [Event.finalize]
  | test :: rest => cycleTrace setUp tearDown test ++ cycleTests setUp tearDown rest

/-- The phase submissions of a trace: description, function id, receiver. -/
def invokes (tr : List (Event ε)) : List (String × Nat × Nat) :=
  tr.filterMap fun e => match e with
    | Event.invoke d i s => some (d, i, s)
    | _ => none

/-- The `doError(test, e)` reports of a trace, in order. -/
def doErrors (tr : List (Event ε)) : List (String × ε) :=
  tr.filterMap fun e => match e with
    | Event.doError n e0 => some (n, e0)
    | _ => none

/-- The test names of the `doSuccess(test)` reports of a trace, in order. -/
def doSuccessNames (tr : List (Event ε)) : List String :=
  tr.filterMap fun e => match e with
    | Event.doSuccess n => some n
    | _ => none

/-- Number of `finalize()` calls in a trace. -/
def countFinalize (tr : List (Event ε)) : Nat :=
  tr.countP fun e => match e with
    | Event.finalize => true
    | _ => false

/-- Number of run-counter increments in a trace. -/
def countIncRun (tr : List (Event ε)) : Nat :=
  tr.countP fun e => match e with
    | Event.incRunCount => true
    | _ => false

/-- Number of log lines in a trace. -/
def countLogs (tr : List (Event ε)) : Nat :=
  tr.countP fun e => match e with
    | Event.log _ => true
    | _ => false

/-- C1: in every test cycle the phase submissions are setUp first, then the
body exactly when setUp settled `Ok`, then tearDown, which is submitted
exactly once on every path. -/
theorem cycle_phase_order (su td : Fn ε) (t : Test ε) :
    invokes (cycleTrace su td t) =
      ("setUp()", su.id, t.scope) ::
      ((match su.result t.scope with
        | Settlement.ok => [(t.name ++ "()", t.ref.id, t.scope)]
        | Settlement.err _ => []) ++
       [("tearDown()", td.id, t.scope)]) := by
  cases h1 : su.result t.scope <;> cases h2 : t.ref.result t.scope <;>
    cases h3 : td.result t.scope <;>
    simp [cycleTrace, runSingleTest_, scheduleAndWait, DRes.addCallback,
      DRes.addErrback, invokes, h1, h2, h3]

/-- C4: a cycle reports `doSuccess` exactly once precisely when no phase
error occurred, i.e. when setUp, body and tearDown all settle `Ok`; in that
case `doError` is never called (and conversely a `doError`-free cycle is an
all-`Ok` cycle). -/
theorem doSuccess_iff_no_errors (su td : Fn ε) (t : Test ε) :
    (doSuccessNames (cycleTrace su td t) = [t.name] ↔
      su.result t.scope = Settlement.ok ∧ t.ref.result t.scope = Settlement.ok ∧
        td.result t.scope = Settlement.ok) ∧
    (doErrors (cycleTrace su td t) = [] ↔
      su.result t.scope = Settlement.ok ∧ t.ref.result t.scope = Settlement.ok ∧
        td.result t.scope = Settlement.ok) := by
  cases h1 : su.result t.scope <;> cases h2 : t.ref.result t.scope <;>
    cases h3 : td.result t.scope <;>
    simp [cycleTrace, runSingleTest_, scheduleAndWait, DRes.addCallback,
      DRes.addErrback, doSuccessNames, doErrors, h1, h2, h3]

/-- A single cycle never calls `finalize()`. -/
theorem countFinalize_cycleTrace (su td : Fn ε) (t : Test ε) :
    countFinalize (cycleTrace su td t) = 0 := by
  cases h1 : su.result t.scope <;> cases h2 : t.ref.result t.scope <;>
    cases h3 : td.result t.scope <;>
    simp [cycleTrace, runSingleTest_, scheduleAndWait, DRes.addCallback,
      DRes.addErrback, countFinalize, h1, h2, h3]

/-- C5: when the iterator is exhausted, `cycleTests` emits exactly the single
`finalize()` call — no phase submission, no timeout, nothing else; and over
any whole run `finalize()` happens exactly once. -/
theorem iterator_exhausted_finalize (su td : Fn ε) (ts : List (Test ε)) :
    cycleTests su td ([] : List (Test ε)) = [Event.finalize] ∧
    countFinalize (cycleTests su td ts) = 1 := by
  refine ⟨rfl, ?_⟩
  induction ts with
  | nil => simp [cycleTests, countFinalize]
  | cons t rest ih =>
      simp only [cycleTests, countFinalize, List.countP_append] at *
      have := countFinalize_cycleTrace su td t
      simp only [countFinalize] at this
      omega

/-- C8: every thrown phase error is handed to `doError` unmodified — the
`doError` reports of a cycle are exactly the settled error values of the
phases that ran, in phase order — the deferred chain always ends recovered
(`Ok`, nothing is rethrown past the cycle boundary), and the run always
proceeds to the next cycle. -/
theorem error_passthrough_and_recovery (su td : Fn ε) (t : Test ε)
    (rest : List (Test ε)) :
    doErrors (cycleTrace su td t) =
      (match su.result t.scope with
       | Settlement.ok =>
          match t.ref.result t.scope with
          | Settlement.ok => []
          | Settlement.err e1 => [(t.name, e1)]
       | Settlement.err e => [(t.name, e)]) ++
      (match td.result t.scope with
       | Settlement.ok => []
       | Settlement.err e2 => [(t.name, e2)]) ∧
    (runSingleTest_ su td t).st = Settlement.ok ∧
    cycleTests su td (t :: rest) = cycleTrace su td t ++ cycleTests su td rest := by
  refine ⟨?_, ?_, rfl⟩ <;>
  · cases h1 : su.result t.scope <;> cases h2 : t.ref.result t.scope <;>
      cases h3 : td.result t.scope <;>
      simp [cycleTrace, runSingleTest_, scheduleAndWait, DRes.addCallback,
        DRes.addErrback, doErrors, h1, h2, h3]

/-- C2 counterexample: with setUp throwing `0` and tearDown also throwing the
same value `0`, `doError(test, 0)` is reported twice in the cycle, not
exactly once. -/
theorem setUp_error_double_report :
    ((⟨1, fun _ => Settlement.err 0⟩ : Fn Nat).result 0 = Settlement.err 0) ∧
    (doErrors (cycleTrace (⟨1, fun _ => Settlement.err 0⟩ : Fn Nat)
        ⟨3, fun _ => Settlement.err 0⟩
        ⟨"t", ⟨2, fun _ => Settlement.ok⟩, 0⟩)) = [("t", 0), ("t", 0)] ∧
    ¬ (doErrors (cycleTrace (⟨1, fun _ => Settlement.err 0⟩ : Fn Nat)
        ⟨3, fun _ => Settlement.err 0⟩
        ⟨"t", ⟨2, fun _ => Settlement.ok⟩, 0⟩)).count ("t", 0) = 1 := by
  exact ⟨rfl, by decide, by decide⟩

/-- C2 amended: when setUp fails with `E`, the body is never submitted,
tearDown is submitted exactly once, and the `doError` reports are exactly
`(test, E)` followed by tearDown's own error if tearDown also fails — so
`doError(test, E)` is called exactly once unless tearDown fails with the
same value `E`. -/
theorem setUp_error_reporting (su td : Fn ε) (t : Test ε) (E : ε)
    (h : su.result t.scope = Settlement.err E) :
    invokes (cycleTrace su td t) =
      [(("setUp()"), su.id, t.scope), (("tearDown()"), td.id, t.scope)] ∧
    doErrors (cycleTrace su td t) =
      (t.name, E) :: (match td.result t.scope with
        | Settlement.ok => []
        | Settlement.err e2 => [(t.name, e2)]) := by
  cases h3 : td.result t.scope <;>
    refine ⟨?_, ?_⟩ <;>
    simp [cycleTrace, runSingleTest_, scheduleAndWait, DRes.addCallback,
      DRes.addErrback, invokes, doErrors, h, h3]

theorem setUp_error_reporting_witness :
    ((⟨1, fun _ => Settlement.err 5⟩ : Fn Nat).result 0 = Settlement.err 5) ∧
    doErrors (cycleTrace (⟨1, fun _ => Settlement.err 5⟩ : Fn Nat)
        ⟨3, fun _ => Settlement.ok⟩
        ⟨"t", ⟨2, fun _ => Settlement.ok⟩, 0⟩) = [("t", 5)] :=
  ⟨rfl, (setUp_error_reporting (⟨1, fun _ => Settlement.err 5⟩ : Fn Nat)
      ⟨3, fun _ => Settlement.ok⟩ ⟨"t", ⟨2, fun _ => Settlement.ok⟩, 0⟩ 5 rfl).2⟩

/-- C3: when the body fails with `E1` and tearDown fails with `E2`, the cycle
reports `doError(test, E1)` then `doError(test, E2)` — exactly two reports,
in phase order — and never reports `doSuccess`. -/
theorem body_and_tearDown_error_reporting (su td : Fn ε) (t : Test ε) (E1 E2 : ε)
    (h1 : su.result t.scope = Settlement.ok)
    (h2 : t.ref.result t.scope = Settlement.err E1)
    (h3 : td.result t.scope = Settlement.err E2) :
    doErrors (cycleTrace su td t) = [(t.name, E1), (t.name, E2)] ∧
    doSuccessNames (cycleTrace su td t) = [] := by
  refine ⟨?_, ?_⟩ <;>
    simp [cycleTrace, runSingleTest_, scheduleAndWait, DRes.addCallback,
      DRes.addErrback, doErrors, doSuccessNames, h1, h2, h3]

theorem body_and_tearDown_error_reporting_witness :
    ((⟨1, fun _ => Settlement.ok⟩ : Fn Nat).result 0 = Settlement.ok) ∧
    ((⟨2, fun _ => Settlement.err 7⟩ : Fn Nat).result 0 = Settlement.err 7) ∧
    ((⟨3, fun _ => Settlement.err 8⟩ : Fn Nat).result 0 = Settlement.err 8) ∧
    doErrors (cycleTrace (⟨1, fun _ => Settlement.ok⟩ : Fn Nat)
        ⟨3, fun _ => Settlement.err 8⟩
        ⟨"t", ⟨2, fun _ => Settlement.err 7⟩, 0⟩) = [("t", 7), ("t", 8)] :=
  ⟨rfl, rfl, rfl, (body_and_tearDown_error_reporting
      (⟨1, fun _ => Settlement.ok⟩ : Fn Nat) ⟨3, fun _ => Settlement.err 8⟩
      ⟨"t", ⟨2, fun _ => Settlement.err 7⟩, 0⟩ 7 8 rfl rfl rfl).1⟩

/-- C6 counterexample: with the descriptor held fixed, swapping the test
case's own `setUp` method changes which function is submitted for the setUp
phase — so the executed setUp is not a field of the fetched descriptor (the
descriptor has no setUp or tearDown field at all; only `name`, `ref`,
`scope`). -/
theorem setUp_not_from_descriptor :
    invokes (runSingleTest_ (⟨1, fun _ => Settlement.ok⟩ : Fn Nat)
        ⟨3, fun _ => Settlement.ok⟩ ⟨"t", ⟨4, fun _ => Settlement.ok⟩, 0⟩).trace ≠
    invokes (runSingleTest_ (⟨2, fun _ => Settlement.ok⟩ : Fn Nat)
        ⟨3, fun _ => Settlement.ok⟩ ⟨"t", ⟨4, fun _ => Settlement.ok⟩, 0⟩).trace := by
  decide

/-- C6 amended: the body executed is the descriptor's `ref` field, while the
setUp and tearDown executed are the test case's own `setUp` and `tearDown`
methods; each of the three is invoked with the descriptor's `scope` object
as receiver. -/
theorem executed_functions_and_receiver (su td : Fn ε) (t : Test ε) :
    invokes (runSingleTest_ su td t).trace =
      (("setUp()"), su.id, t.scope) ::
      ((match su.result t.scope with
        | Settlement.ok => [(t.name ++ "()", t.ref.id, t.scope)]
        | Settlement.err _ => []) ++
       [(("tearDown()"), td.id, t.scope)]) := by
  cases h1 : su.result t.scope <;> cases h2 : t.ref.result t.scope <;>
    cases h3 : td.result t.scope <;>
    simp [runSingleTest_, scheduleAndWait, DRes.addCallback,
      DRes.addErrback, invokes, h1, h2, h3]

/-- The events of a cycle that precede the scheduling of the next cycle. -/
def beforeTimeout (setUp tearDown : Fn ε) (test : Test ε) : List (Event ε) :=
  let d := runSingleTest_ setUp tearDown test
  [Event.setCurrentTest test.name, Event.incRunCount,
   Event.log ("Running test: " ++ test.name)]
  ++ d.trace
  ++ (if d.hadError then [] else [Event.doSuccess test.name])

/-- C7: for consecutive tests `a` then `b`, every event of `a`'s cycle —
including `a`'s tearDown submission and its settlement reporting — precedes
the single fixed-delay `timeout 100` that schedules the next cycle, and only
after it does `b`'s cycle start, whose first phase submission is `b`'s
setUp. -/
theorem inter_test_sequencing (su td : Fn ε) (a b : Test ε)
    (rest : List (Test ε)) :
    cycleTests su td (a :: b :: rest) =
      beforeTimeout su td a ++ [Event.timeout 100] ++
        (cycleTrace su td b ++ cycleTests su td rest) ∧
    Event.invoke ("tearDown()") td.id a.scope ∈ beforeTimeout su td a ∧
    (invokes (cycleTrace su td b)).head? = some (("setUp()"), su.id, b.scope) := by
  refine ⟨?_, ?_, ?_⟩
  · simp [cycleTests, cycleTrace, beforeTimeout]
  · cases h1 : su.result a.scope <;> cases h2 : a.ref.result a.scope <;>
      cases h3 : td.result a.scope <;>
      simp [beforeTimeout, runSingleTest_, scheduleAndWait, DRes.addCallback,
        DRes.addErrback, h1, h2, h3]
  · cases h1 : su.result b.scope <;> cases h2 : b.ref.result b.scope <;>
      cases h3 : td.result b.scope <;>
      simp [cycleTrace, runSingleTest_, scheduleAndWait, DRes.addCallback,
        DRes.addErrback, invokes, h1, h2, h3]

/-- C9: every cycle that fetched a test starts by setting the current test
name, bumping the run counter and logging "Running test: {name}", and its
fourth event is already the setUp submission; the counter increment and the
log line each happen exactly once in the cycle. -/
theorem runCount_and_log_once_before_setUp (su td : Fn ε) (t : Test ε) :
    (cycleTrace su td t).take 4 =
      [Event.setCurrentTest t.name, Event.incRunCount,
       Event.log ("Running test: " ++ t.name),
       Event.invoke ("setUp()") su.id t.scope] ∧
    countIncRun (cycleTrace su td t) = 1 ∧
    countLogs (cycleTrace su td t) = 1 := by
  refine ⟨?_, ?_, ?_⟩ <;>
  · cases h1 : su.result t.scope <;> cases h2 : t.ref.result t.scope <;>
      cases h3 : td.result t.scope <;>
      simp [cycleTrace, runSingleTest_, scheduleAndWait, DRes.addCallback,
        DRes.addErrback, countIncRun, countLogs, h1, h2, h3]

/-- C10: the `hadError` flag and error reports are created afresh inside each
`cycleTests` invocation, so the whole run is the concatenation of independent
per-cycle traces; whatever happened in test `a`'s cycle, if all of test `b`'s
phases succeed then `b`'s cycle reports `doSuccess` exactly once and no
`doError`. -/
theorem error_state_cycle_scoped (su td : Fn ε) (a b : Test ε)
    (rest : List (Test ε))
    (h1 : su.result b.scope = Settlement.ok)
    (h2 : b.ref.result b.scope = Settlement.ok)
    (h3 : td.result b.scope = Settlement.ok) :
    cycleTests su td (a :: b :: rest) =
      cycleTrace su td a ++ (cycleTrace su td b ++ cycleTests su td rest) ∧
    doSuccessNames (cycleTrace su td b) = [b.name] ∧
    doErrors (cycleTrace su td b) = [] := by
  refine ⟨rfl, ?_, ?_⟩ <;>
    simp [cycleTrace, runSingleTest_, scheduleAndWait, DRes.addCallback,
      DRes.addErrback, doSuccessNames, doErrors, h1, h2, h3]

theorem error_state_cycle_scoped_witness :
    ((⟨1, fun _ => Settlement.ok⟩ : Fn Nat).result 1 = Settlement.ok) ∧
    ((⟨4, fun _ => Settlement.ok⟩ : Fn Nat).result 1 = Settlement.ok) ∧
    ((⟨3, fun _ => Settlement.ok⟩ : Fn Nat).result 1 = Settlement.ok) ∧
    doSuccessNames (cycleTrace (⟨1, fun _ => Settlement.ok⟩ : Fn Nat)
        ⟨3, fun _ => Settlement.ok⟩ ⟨"b", ⟨4, fun _ => Settlement.ok⟩, 1⟩) = ["b"] :=
  ⟨rfl, rfl, rfl, (error_state_cycle_scoped (⟨1, fun _ => Settlement.ok⟩ : Fn Nat)
      ⟨3, fun _ => Settlement.ok⟩ ⟨"a", ⟨2, fun _ => Settlement.err 5⟩, 0⟩
      ⟨"b", ⟨4, fun _ => Settlement.ok⟩, 1⟩ [] rfl rfl rfl).2.1⟩

end Webdriver
